import Mathlib

/-!
Verification of the media playback / timeline-thumbnail engine
(`videoplayer.c`, GTK3 + GStreamer variant, and the simpler variant without
thumbnails).  The C code is shallowly embedded: each bus callback and timer
callback becomes a pure Lean function over an explicit `CustomData` record,
with the results of the GStreamer queries (duration, position, preroll
sample, state-change return) passed in as explicit environment parameters.
`gint64` values are modelled as `Int`; C integer division (truncation
toward zero) is `Int.tdiv`.  The GLib main loop with its timeout sources is
modelled as a transition system (`Sys`, `Ev`, `stepEv`, `Reach`).
-/

namespace VideoPlayer

/-- GStreamer element states (GST_STATE_VOID_PENDING = 0 is what the
`memset(0)` in `main` leaves in `data.state` before any message arrives). -/
inductive GstState where
  | VoidPending
  | Null
  | Ready
  | Paused
  | Playing
deriving DecidableEq, Repr

/-- Return values of `gst_element_set_state` (GstStateChangeReturn). -/
inductive StateChangeReturn where
  | Failure
  | Success
  | Async
  | NoPreroll
deriving DecidableEq, Repr

/-- The `CustomData` struct of `videoplayer.c` (the fields the core logic
reads and writes; the widget and pipeline handles are external). `duration`,
`position` are `gint64` nanosecond counts; `timer_id` is the `gint` id of the
position-poll timeout source, `-1` when none is recorded. -/
structure CustomData where
  state : GstState
  duration : Int
  position : Int
  timer_id : Int
deriving DecidableEq, Repr

/-- GST_CLOCK_TIME_NONE, as seen through a `gint64`: the all-ones `guint64`
sentinel reinterpreted as the two's-complement value `-1`.  The comparison
`time == GST_CLOCK_TIME_NONE` in C promotes the signed `time` to `guint64`,
so it holds exactly for the `gint64` value `-1`. -/
def GST_CLOCK_TIME_NONE : Int := -1

/-- Decimal rendering of a `guint` left-padded with zeros to a minimum width
`w`, i.e. the `printf` conversion `%0wu`. -/
def pad (w : Nat) (n : Nat) : String :=
  let s := toString n
  String.mk (List.replicate (w - s.length) '0') ++ s

/-- `time_to_string` from `videoplayer.c` (identical in both variants):
returns `"00:00:00.000"` for the GST_CLOCK_TIME_NONE sentinel, otherwise
formats the time with `"%02" GST_TIME_FORMAT` = `%02u:%02u:%02u.%09u`
(hours, minutes, seconds, nanoseconds, computed by `GST_TIME_ARGS` on the
`guint64` reinterpretation, hours truncated to `guint`) and keeps the first
`TIME_STRING_LENGTH - 1 = 12` bytes (`g_strndup`). -/
def time_to_string (time : Int) : String :=
  if time = GST_CLOCK_TIME_NONE then "00:00:00.000"
  else
    let t : Nat := ((time.emod (2 ^ 64)).toNat)
    let hours := (t / (1000000000 * 60 * 60)) % 2 ^ 32
    let minutes := (t / (1000000000 * 60)) % 60
    let seconds := (t / 1000000000) % 60
    let nanos := t % 1000000000
    (pad 2 hours ++ ":" ++ pad 2 minutes ++ ":" ++ pad 2 seconds ++ "." ++ pad 9 nanos).take 12

/-- The outcome of the `pull-preroll` signal: whether a sample arrived, and
whether `gst_sample_get_caps` / `gst_structure_get_int` on width and height
succeed on it. -/
structure GstSample where
  hasCaps : Bool
  widthOk : Bool
  heightOk : Bool
deriving DecidableEq, Repr

/-- Results of the GStreamer calls one `extract_thumbnails` invocation makes:
the return of `gst_element_set_state(timelinebin, PAUSED)`, the value written
by `gst_element_query_duration` when that query succeeds (`none` = query
failed, out-argument left untouched), and the sample delivered by
`pull-preroll`. -/
structure ThumbEnv where
  pausedRet : StateChangeReturn
  queryDuration : Option Int
  pulledSample : Option GstSample
deriving DecidableEq, Repr

/-- The seek target computed by `extract_thumbnails`:
`position = (step+1) * data->duration * 10 / 100`, with C (truncating)
`gint64` division. -/
def seekTarget (duration step : Int) : Int :=
  Int.tdiv ((step + 1) * duration * 10) 100

/-- Observable outcome of one `extract_thumbnails` call: the updated
`CustomData` (the duration query writes `data->duration`), the seek target
passed to `gst_element_seek_simple` (if reached), and whether a snapshot
image was written to `snapshot.png`. -/
structure ExtractResult where
  data : CustomData
  seeked : Option Int
  saved : Bool
deriving DecidableEq, Repr

/-- `extract_thumbnails` from `videoplayer.c`.  On `GST_STATE_CHANGE_FAILURE`
or `GST_STATE_CHANGE_NO_PREROLL` it prints and returns at once (no query, no
seek, no pull).  Otherwise it queries the duration into the shared
`data->duration`, seeks to `(step+1) * duration * 10 / 100`, pulls one
preroll sample, and saves `snapshot.png` when the sample has caps and at
least one of the width/height fields is read (`res = get width; res |= get
height`). -/
def extract_thumbnails (data : CustomData) (step : Int) (env : ThumbEnv) : ExtractResult :=
  match env.pausedRet with
  | .Failure => ⟨data, none, false⟩
  | .NoPreroll => ⟨data, none, false⟩
  | _ =>
    let data1 :=
      match env.queryDuration with
      | some d => { data with duration := d }
      | none => data
    let position := seekTarget data1.duration step
    match env.pulledSample with
    | none => ⟨data1, some position, false⟩
    | some s =>
      if !s.hasCaps then ⟨data1, some position, false⟩
      else if !(s.widthOk || s.heightOk) then ⟨data1, some position, false⟩
      else ⟨data1, some position, true⟩

/-- Updates the core emits toward the UI shell: the duration and position
label texts, the slider ratio (`update_widget` on SCALE), and the timeline
widget update (`update_widget` on TIMELINE, which appends an image read from
`snapshot.png` — the code's thumbnail-ready notification). -/
inductive Emission where
  | durationUpdate
  | positionUpdate
  | sliderUpdate
  | timelineUpdate
deriving DecidableEq, Repr

/-- Observable outcome of one fire of the `timeline_make_thumbnails` timeout
callback: updated data, updated value of the function-local `static int
count`, the boolean it returns (`TRUE` keeps the timer scheduled,
`G_SOURCE_REMOVE` removes it), the UI emissions, and the result of the
`extract_thumbnails` call when one was made. -/
structure TMResult where
  data : CustomData
  count : Int
  again : Bool
  emissions : List Emission
  extracted : Option ExtractResult
deriving DecidableEq, Repr

/-- `timeline_make_thumbnails` from `videoplayer.c`, with the `static int
count` threaded explicitly (it is zero-initialised at process start and
never reset).  While `count < THUMBNAILS_NUMBER = 10` it calls
`extract_thumbnails(data, count)`, unconditionally calls
`update_widget(TIMELINE)`, increments `count` and returns `TRUE`; otherwise
it tears the timeline pipeline down and returns `G_SOURCE_REMOVE`. -/
def timeline_make_thumbnails (data : CustomData) (count : Int) (env : ThumbEnv) : TMResult :=
  if count < 10 then
    let r := extract_thumbnails data count env
    ⟨r.data, count + 1, true, [.timelineUpdate], some r⟩
  else
    ⟨data, count, false, [], none⟩

/-- Aggregate observations of a sequence of `timeline_make_thumbnails`
fires: final data, final value of the static counter, how many timeline
widget updates were emitted, how many snapshots were saved, and the list of
step indices at which `extract_thumbnails` was invoked. -/
structure RunStats where
  data : CustomData
  count : Int
  timelineUpdates : Nat
  saves : Nat
  steps : List Int
deriving DecidableEq, Repr

/-- Folds `timeline_make_thumbnails` over a list of per-fire environments,
starting from a given value of the static counter, recording the
observations.  The fires may come from several timeout sources (one per
`open_cb`): the static counter is shared by all of them. -/
def runThumb (data : CustomData) (count : Int) : List ThumbEnv → RunStats
  | [] => ⟨data, count, 0, 0, []⟩
  | env :: envs =>
    let r := timeline_make_thumbnails data count env
    let rest := runThumb r.data r.count envs
    { data := rest.data
      count := rest.count
      timelineUpdates := r.emissions.count .timelineUpdate + rest.timelineUpdates
      saves := (match r.extracted with
                | some e => if e.saved then 1 else 0
                | none => 0) + rest.saves
      steps := (match r.extracted with
                | some _ => [count]
                | none => []) ++ rest.steps }

/-- Asynchronous pipeline-state requests issued by the handlers
(`gst_element_set_state` on the playbin). -/
inductive StateRequest where
  | toPlaying
  | toPaused
  | toReady
  | toNull
deriving DecidableEq, Repr

/-- `timer_src_func` from `videoplayer.c` (the 20 ms position poller).
`qpos` is the value written by `gst_element_query_position` when it
succeeds (`none` = query failed, `data->position` untouched).  If the
position differs from the duration it emits the position and slider
updates and returns `TRUE` (stays scheduled); otherwise it records
`timer_id = -1` and returns `G_SOURCE_REMOVE`. -/
def timer_src_func (data : CustomData) (qpos : Option Int) : CustomData × Bool × List Emission :=
  let data1 :=
    match qpos with
    | some p => { data with position := p }
    | none => data
  if data1.position ≠ data1.duration then
    (data1, true, [.positionUpdate, .sliderUpdate])
  else
    ({ data1 with timer_id := -1 }, false, [])

/-- `eos_cb` from `videoplayer.c` (GTK3 variant): on End-Of-Stream it
requests `GST_STATE_READY` on the playbin, sets `data->position =
data->duration`, and calls `update_widget(POSITION)` once. -/
def eos_cb (data : CustomData) : CustomData × List StateRequest × List Emission :=
  ({ data with position := data.duration }, [.toReady], [.positionUpdate])

/-- State of the single-threaded GLib main loop around `CustomData`:
the ids of the currently scheduled position-poll timeout sources (`timers`)
and a counter from which `g_timeout_add` hands out fresh positive source
ids (`nextId`). -/
structure Sys where
  data : CustomData
  timers : List Nat
  nextId : Nat
deriving DecidableEq, Repr

/-- The state `main` leaves before the loop runs: `memset(0)` puts
`GST_STATE_VOID_PENDING` in `data.state`, then duration and position are
set to GST_CLOCK_TIME_NONE and `timer_id` to `-1`; no timeout source is
scheduled. -/
def initSys : Sys := ⟨⟨.VoidPending, -1, -1, -1⟩, [], 0⟩

/-- `state_changed_cb` from `videoplayer.c` (GTK3 variant), for a
state-changed bus message whose source is the playbin: records the new
state; on entering PLAYING it schedules the 20 ms poll timer
(`g_timeout_add` returns a fresh positive id stored in `timer_id`), queries
the duration (`qdur` is the value written when the query succeeds) and
emits the duration update; on entering PAUSED it removes the recorded
timer when `timer_id > 0` and resets `timer_id` to `-1`. -/
def state_changed_cb (s : Sys) (new_state : GstState) (qdur : Option Int) :
    Sys × List Emission :=
  let data := { s.data with state := new_state }
  if new_state = .Playing then
    let id := s.nextId + 1
    let data1 := { data with timer_id := (id : Int) }
    let data2 :=
      match qdur with
      | some d => { data1 with duration := d }
      | none => data1
    (⟨data2, id :: s.timers, id⟩, [.durationUpdate])
  else if new_state = .Paused then
    if data.timer_id > 0 then
      (⟨{ data with timer_id := -1 }, s.timers.erase data.timer_id.toNat, s.nextId⟩, [])
    else
      (⟨data, s.timers, s.nextId⟩, [])
  else
    (⟨data, s.timers, s.nextId⟩, [])

/-- One fire of a scheduled poll timer with source id `id`: runs
`timer_src_func`; a `FALSE` (`G_SOURCE_REMOVE`) return makes the main loop
remove that source. -/
def sys_timer_fire (s : Sys) (id : Nat) (qpos : Option Int) : Sys × List Emission :=
  let r := timer_src_func s.data qpos
  if r.2.1 then
    (⟨r.1, s.timers, s.nextId⟩, r.2.2)
  else
    (⟨r.1, s.timers.erase id, s.nextId⟩, r.2.2)

/-- Delivery of the End-Of-Stream bus message: runs `eos_cb` (the READY
request it issues is confirmed later through state-changed messages). -/
def sys_eos (s : Sys) : Sys × List Emission :=
  let r := eos_cb s.data
  (⟨r.1, s.timers, s.nextId⟩, r.2.2)

/-- Events the main loop can deliver to the handlers: a state-changed bus
message from the playbin (with the duration-query outcome read inside the
handler), the firing of a scheduled poll timer, and the End-Of-Stream bus
message. -/
inductive Ev where
  | stateChanged (new_state : GstState) (qdur : Option Int)
  | timerFire (id : Nat) (qpos : Option Int)
  | endOfStream
deriving DecidableEq, Repr

/-- The lifecycle state the bus has last confirmed, as GStreamer sees it:
before any message the pipeline is in NULL (the `VoidPending` left by
`memset` only reflects that no message has arrived yet). -/
def confirmed (s : Sys) : GstState :=
  match s.data.state with
  | .VoidPending => .Null
  | st => st

/-- GStreamer changes element state stepwise along
NULL ↔ READY ↔ PAUSED ↔ PLAYING, posting one state-changed message per
step; a message into `b` can only follow a confirmed state `a` adjacent
to `b`. -/
def adjacent : GstState → GstState → Bool
  | .Null, .Ready => true
  | .Ready, .Null => true
  | .Ready, .Paused => true
  | .Paused, .Ready => true
  | .Paused, .Playing => true
  | .Playing, .Paused => true
  | _, _ => false

/-- Whether the main loop can deliver event `e` in state `s`: state-changed
messages follow the stepwise transition order, a timer can fire only while
its source is scheduled, EOS can arrive any time. -/
def enabledB (s : Sys) : Ev → Bool
  | .stateChanged new_state _ => adjacent (confirmed s) new_state
  | .timerFire id _ => s.timers.contains id
  | .endOfStream => true

/-- Dispatch of one event to the corresponding handler. -/
def stepEv (s : Sys) : Ev → Sys × List Emission
  | .stateChanged new_state qdur => state_changed_cb s new_state qdur
  | .timerFire id qpos => sys_timer_fire s id qpos
  | .endOfStream => sys_eos s

/-- States of the playback session reachable from process start by enabled
events. -/
inductive Reach : Sys → Prop where
  | init : Reach initSys
  | step (s : Sys) (e : Ev) : Reach s → enabledB s e = true → Reach (stepEv s e).1

/-- Runs a list of events through `stepEv`, keeping only the state. -/
def runEvs (s : Sys) (evs : List Ev) : Sys :=
  evs.foldl (fun t e => (stepEv t e).1) s

/-- Concrete `CustomData` used to instantiate the universally quantified
theorems: a session playing a 1000 ns clip at position 0, poll timer id 1. -/
def dPlay : CustomData := ⟨.Playing, 1000, 0, 1⟩

/-- Environment of a thumbnail step whose every GStreamer call succeeds on a
1000 ns source. -/
def envOk : ThumbEnv := ⟨.Success, some 1000, some ⟨true, true, true⟩⟩

/-- Environment of a thumbnail step whose Paused transition returns
GST_STATE_CHANGE_FAILURE. -/
def envFail : ThumbEnv := ⟨.Failure, none, none⟩

/-- Environment of a thumbnail step that prerolls fine but whose
`pull-preroll` delivers no sample. -/
def envNoFrame : ThumbEnv := ⟨.Success, some 1000, none⟩

/-- Event trace: the pipeline steps NULL → READY → PAUSED → PLAYING (a 100 ns
clip), then the poll timer fires with the queried position already equal to
the duration. -/
def c8trace : List Ev :=
  [.stateChanged .Ready none, .stateChanged .Paused none,
   .stateChanged .Playing (some 100), .timerFire 1 (some 100)]

/-- The claimed invariant on the poller: at most one scheduled poll source,
and when one is scheduled it is the one recorded in `timer_id` (a positive
id) and the confirmed state is PLAYING. -/
def sysInv (s : Sys) : Prop :=
  s.timers = [] ∨
  ∃ id : Nat, s.timers = [id] ∧ s.data.timer_id = (id : Int) ∧ 0 < id ∧
    s.data.state = GstState.Playing

lemma tdiv_ofNat (a b : Nat) : Int.tdiv (a : Int) (b : Int) = ((a / b : Nat) : Int) := rfl

lemma seekTarget_ofNat (d sn : Nat) :
    seekTarget (d : Int) (sn : Int) = ((((sn + 1) * d * 10) / 100 : Nat) : Int) := by
  unfold seekTarget
  rw [show ((sn : Int) + 1) * (d : Int) * 10 = (((sn + 1) * d * 10 : Nat) : Int) by push_cast; ring]
  exact tdiv_ofNat _ _

set_option maxRecDepth 20000 in
/-- C5: `time_to_string` maps the unknown-time sentinel to `"00:00:00.000"`
and 3,725,000,000,000 ns (1 h 2 min 5 s) to `"01:02:05.000"`. -/
theorem c5_time_to_string :
    time_to_string GST_CLOCK_TIME_NONE = "00:00:00.000" ∧
    time_to_string 3725000000000 = "01:02:05.000" := by
  exact ⟨rfl, rfl⟩

/-- C1 fails as stated: the seek target of the last step (index 9) is
`(9+1) * D * 10 / 100 = D`, exactly the duration, not strictly less than it;
shown here at the concrete duration D = 1000 ns. -/
theorem c1_counterexample :
    seekTarget 1000 9 = 1000 ∧ ¬ seekTarget 1000 9 < 1000 := by decide

/-- C1 (amended): on a successful step the code seeks to
`(s+1) * D * 10 / 100` (C integer division); for steps 0..8 the target is
strictly below the duration and (when D ≥ 10 ns) strictly increasing in the
step index, while the step-9 target equals the duration exactly. -/
theorem c1_seek_targets (D s : Int) (hD : 0 < D) (h0 : 0 ≤ s) (h8 : s ≤ 8)
    (data : CustomData) (env : ThumbEnv)
    (hp : env.pausedRet = .Success) (hq : env.queryDuration = some D) :
    (extract_thumbnails data s env).seeked = some (seekTarget D s)
  ∧ seekTarget D s < D
  ∧ seekTarget D 9 = D
  ∧ (10 ≤ D → seekTarget D s < seekTarget D (s + 1)) := by
  obtain ⟨d, rfl⟩ := Int.eq_ofNat_of_zero_le hD.le
  obtain ⟨sn, rfl⟩ := Int.eq_ofNat_of_zero_le h0
  have hd : 0 < d := by exact_mod_cast hD
  have hsn : sn ≤ 8 := by exact_mod_cast h8
  refine ⟨?_, ?_, ?_, ?_⟩
  · cases hps : env.pulledSample with
    | none => simp [extract_thumbnails, hp, hq, hps]
    | some smp =>
      by_cases hc : smp.hasCaps <;> by_cases hw : (smp.widthOk || smp.heightOk) <;>
        simp [extract_thumbnails, hp, hq, hps, hc, hw]
  · rw [seekTarget_ofNat]
    have h : ((sn + 1) * d * 10) / 100 < d := by
      rw [Nat.div_lt_iff_lt_mul (by norm_num)]
      nlinarith
    exact_mod_cast h
  · rw [show (9 : Int) = ((9 : Nat) : Int) from rfl, seekTarget_ofNat]
    have h : ((9 + 1) * d * 10) / 100 = d := by
      rw [show (9 + 1) * d * 10 = d * 100 by ring]
      exact Nat.mul_div_cancel d (by norm_num)
    exact_mod_cast h
  · intro hge
    have hd10 : 10 ≤ d := by exact_mod_cast hge
    rw [show (sn : Int) + 1 = ((sn + 1 : Nat) : Int) by push_cast; ring,
      seekTarget_ofNat, seekTarget_ofNat]
    have h1 : ((sn + 1) * d * 10 + 100) / 100 = ((sn + 1) * d * 10) / 100 + 1 :=
      Nat.add_div_right _ (by norm_num)
    have h2 : (sn + 1) * d * 10 + 100 ≤ (sn + 1 + 1) * d * 10 := by nlinarith
    have h3 := Nat.div_le_div_right (c := 100) h2
    have key : ((sn + 1) * d * 10) / 100 < ((sn + 1 + 1) * d * 10) / 100 := by omega
    exact_mod_cast key

/-- Witness for C1 (amended) at D = 1000 ns, step 0, all calls succeeding. -/
theorem c1_seek_targets_witness :
    (extract_thumbnails dPlay 0 envOk).seeked = some (seekTarget 1000 0)
  ∧ seekTarget 1000 0 < 1000
  ∧ seekTarget 1000 9 = 1000
  ∧ (10 ≤ (1000 : Int) → seekTarget 1000 0 < seekTarget 1000 (0 + 1)) :=
  c1_seek_targets 1000 0 (by decide) (by decide) (by decide) dPlay envOk rfl rfl

/-- C6: a poll tick whose position query returns `p` emits the position and
slider updates and stays scheduled (returns TRUE) when `p` is strictly below
the duration, and silently unschedules itself (records `timer_id = -1`,
returns G_SOURCE_REMOVE, no emission) when `p` equals the duration. -/
theorem c6_timer_tick (data : CustomData) (p : Int) :
    (p < data.duration →
      timer_src_func data (some p) =
        ({ data with position := p }, true, [.positionUpdate, .sliderUpdate]))
  ∧ (p = data.duration →
      timer_src_func data (some p) =
        ({ data with position := p, timer_id := -1 }, false, [])) := by
  constructor
  · intro h
    simp [timer_src_func, ne_of_lt h]
  · intro h
    simp [timer_src_func, h]

/-- Witness for C6 on a 1000 ns session: a tick at position 50 emits and
continues, a tick at position 1000 stops silently. -/
theorem c6_timer_tick_witness :
    timer_src_func dPlay (some 50) =
      ({ dPlay with position := 50 }, true, [.positionUpdate, .sliderUpdate])
  ∧ timer_src_func dPlay (some 1000) =
      ({ dPlay with position := 1000, timer_id := -1 }, false, []) :=
  ⟨(c6_timer_tick dPlay 50).1 (by decide), (c6_timer_tick dPlay 1000).2 (by decide)⟩

/-- C7: on every End-Of-Stream delivery the handler requests READY, forces
`position := duration`, and emits exactly one position update; it neither
reads nor writes `timer_id` or the scheduled timers, so this holds whether
or not the poller has already stopped. -/
theorem c7_end_of_stream (data : CustomData) (s : Sys) :
    (eos_cb data).2.1 = [StateRequest.toReady]
  ∧ (eos_cb data).1.position = data.duration
  ∧ (eos_cb data).2.2 = [Emission.positionUpdate]
  ∧ (eos_cb data).1.timer_id = data.timer_id
  ∧ (eos_cb data).1.state = data.state
  ∧ (sys_eos s).1.timers = s.timers
  ∧ (sys_eos s).2 = [Emission.positionUpdate] := by
  exact ⟨rfl, rfl, rfl, rfl, rfl, rfl, rfl⟩

lemma extract_no_sample (data : CustomData) (step : Int) (env : ThumbEnv)
    (h : env.pulledSample = none) : (extract_thumbnails data step env).saved = false := by
  cases hp : env.pausedRet <;> simp [extract_thumbnails, hp, h]

lemma runThumb_updates (data : CustomData) (k : Nat) (hk : k ≤ 10) (envs : List ThumbEnv) :
    (runThumb data (k : Int) envs).timelineUpdates = min envs.length (10 - k) := by
  induction envs generalizing data k with
  | nil => simp [runThumb]
  | cons e es ih =>
    by_cases h : k < 10
    · have hI : (k : Int) < 10 := by exact_mod_cast h
      rw [runThumb, timeline_make_thumbnails, if_pos hI]
      rw [show (k : Int) + 1 = ((k + 1 : Nat) : Int) by push_cast; ring]
      rw [show (runThumb (extract_thumbnails data (k : Int) e).data ((k + 1 : Nat) : Int)
            es).timelineUpdates = min es.length (10 - (k + 1)) from ih _ _ (by omega)]
      simp
      omega
    · have hk10 : k = 10 := by omega
      subst hk10
      rw [runThumb, timeline_make_thumbnails, if_neg (by norm_num)]
      dsimp only
      rw [show (runThumb data ((10 : Nat) : Int) es).timelineUpdates = min es.length (10 - 10) from
        ih _ 10 (by omega)]
      simp

lemma runThumb_saves_none (data : CustomData) (c : Int) (envs : List ThumbEnv)
    (h : ∀ e ∈ envs, e.pulledSample = none) :
    (runThumb data c envs).saves = 0 := by
  induction envs generalizing data c with
  | nil => simp [runThumb]
  | cons e es ih =>
    have he : e.pulledSample = none := h e (by simp)
    have hrest : ∀ x ∈ es, x.pulledSample = none := fun x hx => h x (by simp [hx])
    by_cases hc : c < 10
    · rw [runThumb, timeline_make_thumbnails, if_pos hc]
      simp [extract_no_sample _ _ _ he, ih _ _ hrest]
    · rw [runThumb, timeline_make_thumbnails, if_neg hc]
      simp [ih _ _ hrest]

lemma runThumb_steps (data : CustomData) (k : Nat) (hk : k ≤ 10) (envs : List ThumbEnv) :
    (runThumb data (k : Int) envs).steps =
      (List.range' k (min envs.length (10 - k))).map Int.ofNat := by
  induction envs generalizing data k with
  | nil => simp [runThumb]
  | cons e es ih =>
    by_cases h : k < 10
    · have hI : (k : Int) < 10 := by exact_mod_cast h
      rw [runThumb, timeline_make_thumbnails, if_pos hI]
      rw [show (k : Int) + 1 = ((k + 1 : Nat) : Int) by push_cast; ring]
      rw [show (runThumb (extract_thumbnails data (k : Int) e).data ((k + 1 : Nat) : Int)
            es).steps = (List.range' (k + 1) (min es.length (10 - (k + 1)))).map Int.ofNat from
        ih _ _ (by omega)]
      rw [show min (e :: es).length (10 - k) = min es.length (10 - (k + 1)) + 1 by
        simp; omega]
      rw [List.range'_succ]
      simp

    · have hk10 : k = 10 := by omega
      subst hk10
      rw [runThumb, timeline_make_thumbnails, if_neg (by norm_num)]
      dsimp only
      rw [show (runThumb data ((10 : Nat) : Int) es).steps =
        (List.range' 10 (min es.length (10 - 10))).map Int.ofNat from ih _ 10 (by omega)]
      simp

lemma runThumb_append (d : CustomData) (c : Int) (xs ys : List ThumbEnv) :
    (runThumb d c (xs ++ ys)).steps =
      (runThumb d c xs).steps ++
      (runThumb (runThumb d c xs).data (runThumb d c xs).count ys).steps := by
  induction xs generalizing d c with
  | nil => simp [runThumb]
  | cons x xs ih =>
    rw [List.cons_append, runThumb, runThumb]
    simp [ih, List.append_assoc]

/-- C2 fails as stated: when the PAUSED transition of the job pipeline
fails at a step, `timeline_make_thumbnails` nevertheless keeps the stepping
timer alive (returns TRUE), advances the static counter, and the next fire
attempts a further extraction — the job is not aborted. -/
theorem c2_counterexample :
    (timeline_make_thumbnails dPlay 0 envFail).again = true
  ∧ (timeline_make_thumbnails dPlay 0 envFail).count = 1
  ∧ ((timeline_make_thumbnails dPlay 1 envFail).extracted).isSome = true := by decide

/-- C2 (amended): a FAILURE or NO_PREROLL return from the PAUSED transition
aborts only the current step — `extract_thumbnails` performs no duration
query, seek, pull, or snapshot save and leaves the session data unchanged —
but the stepping timer continues (TRUE) and the counter still advances, so
subsequent steps are attempted; the playback session state is unaffected. -/
theorem c2_step_failure (data : CustomData) (count : Int) (env : ThumbEnv)
    (hp : env.pausedRet = .Failure ∨ env.pausedRet = .NoPreroll) (hc : count < 10) :
    extract_thumbnails data count env = ⟨data, none, false⟩
  ∧ (timeline_make_thumbnails data count env).data = data
  ∧ (timeline_make_thumbnails data count env).again = true
  ∧ (timeline_make_thumbnails data count env).count = count + 1 := by
  have he : extract_thumbnails data count env = ⟨data, none, false⟩ := by
    rcases hp with h | h <;> simp [extract_thumbnails, h]
  refine ⟨he, ?_, ?_, ?_⟩ <;> simp [timeline_make_thumbnails, hc, he]

/-- Witness for C2 (amended): a FAILURE at step 0 of a fresh job. -/
theorem c2_step_failure_witness :
    extract_thumbnails dPlay 0 envFail = ⟨dPlay, none, false⟩
  ∧ (timeline_make_thumbnails dPlay 0 envFail).data = dPlay
  ∧ (timeline_make_thumbnails dPlay 0 envFail).again = true
  ∧ (timeline_make_thumbnails dPlay 0 envFail).count = 0 + 1 :=
  c2_step_failure dPlay 0 envFail (Or.inl rfl) (by decide)

/-- C3 fails as stated: a full 10-step job in which every `pull-preroll`
returns nothing still emits the timeline widget update on every step (the
previous `snapshot.png`, or none, is what gets shown), so 10 — not fewer
than 10 — thumbnail notifications are emitted, while no snapshot is ever
saved. -/
theorem c3_counterexample :
    (runThumb dPlay 0 (List.replicate 10 envNoFrame)).timelineUpdates = 10
  ∧ ¬ (runThumb dPlay 0 (List.replicate 10 envNoFrame)).timelineUpdates < 10
  ∧ (runThumb dPlay 0 (List.replicate 10 envNoFrame)).saves = 0 := by decide

/-- C3 (amended): a step whose pull produces no frame logs and saves no
snapshot, but the timeline widget update is still emitted for that step, so
a job emits one notification per step (min of fires and 10) regardless of
pull failures; the failed pulls show up as zero snapshot saves, not as
missing notifications. -/
theorem c3_silent_gap (data : CustomData) (count : Int) (env : ThumbEnv)
    (hs : env.pulledSample = none) (hc : count < 10) (envs : List ThumbEnv)
    (hall : ∀ e ∈ envs, e.pulledSample = none) :
    (timeline_make_thumbnails data count env).emissions = [Emission.timelineUpdate]
  ∧ ((timeline_make_thumbnails data count env).extracted.map ExtractResult.saved) = some false
  ∧ (runThumb data 0 envs).saves = 0
  ∧ (runThumb data 0 envs).timelineUpdates = min envs.length 10 := by
  refine ⟨?_, ?_, runThumb_saves_none data 0 envs hall, ?_⟩
  · simp [timeline_make_thumbnails, hc]
  · simp [timeline_make_thumbnails, hc, extract_no_sample _ _ _ hs]
  · have h := runThumb_updates data 0 (by omega) envs
    simpa using h

/-- Witness for C3 (amended): a no-frame pull at step 0, and a job of 10
fires all of whose pulls fail. -/
theorem c3_silent_gap_witness :
    (timeline_make_thumbnails dPlay 0 envNoFrame).emissions = [Emission.timelineUpdate]
  ∧ ((timeline_make_thumbnails dPlay 0 envNoFrame).extracted.map ExtractResult.saved) = some false
  ∧ (runThumb dPlay 0 (List.replicate 3 envNoFrame)).saves = 0
  ∧ (runThumb dPlay 0 (List.replicate 3 envNoFrame)).timelineUpdates =
      min (List.replicate 3 envNoFrame).length 10 :=
  c3_silent_gap dPlay 0 envNoFrame rfl (by decide) (List.replicate 3 envNoFrame)
    (by intro e he; simp [envNoFrame] at he; simp [he, envNoFrame])

/-- C4 fails as stated: on step 1 (not the first step) with a successful
PAUSED transition, the duration query writes 777 into the shared
`data.duration` field — the very field the playback session uses — changing
it from the session value 500. -/
theorem c4_counterexample :
    (timeline_make_thumbnails ⟨GstState.Playing, 500, 0, 1⟩ 1
      ⟨.Success, some 777, some ⟨true, true, true⟩⟩).data.duration = 777
  ∧ (500 : Int) ≠ 777 := by decide

/-- C4 (amended): the duration is queried from the job pipeline on every
step whose PAUSED transition does not fail (not only the first), and a
successful query stores the value into the shared `CustomData.duration`
field used by the playback session, so a thumbnail step can change the
playback session duration. -/
theorem c4_duration_shared (data : CustomData) (step D : Int) (env : ThumbEnv)
    (hp : env.pausedRet = .Success ∨ env.pausedRet = .Async)
    (hq : env.queryDuration = some D) :
    (extract_thumbnails data step env).data.duration = D := by
  rcases hp with h | h <;>
    cases hps : env.pulledSample with
    | none => simp [extract_thumbnails, h, hq, hps]
    | some smp =>
      by_cases hc : smp.hasCaps <;> by_cases hw : (smp.widthOk || smp.heightOk) <;>
        simp [extract_thumbnails, h, hq, hps, hc, hw]

/-- Witness for C4 (amended): step 1 with a successful query returning 1000. -/
theorem c4_duration_shared_witness :
    (extract_thumbnails dPlay 1 envOk).data.duration = 1000 :=
  c4_duration_shared dPlay 1 1000 envOk (Or.inl rfl) rfl

/-- C10: the step counter of `timeline_make_thumbnails` is a function-local
static shared by all jobs and never reset, so over a whole process at most
10 extraction steps happen in total: any sequence of fires from counter 0
performs extractions exactly at step indices 0..min(fires,10)-1; once the
counter has reached 10, any further fires (e.g. the timer started by a
second open) perform zero extractions; and splitting the fire sequence at a
second open shows the later fires continuing from the counter value the
earlier fires left behind. -/
theorem c10_static_counter (d d2 : CustomData) (envs more : List ThumbEnv) :
    (runThumb d 0 envs).steps.length ≤ 10
  ∧ (runThumb d 0 envs).steps = (List.range' 0 (min envs.length 10)).map Int.ofNat
  ∧ (runThumb d2 10 more).steps = []
  ∧ (runThumb d 0 (envs ++ more)).steps =
      (runThumb d 0 envs).steps ++
      (runThumb (runThumb d 0 envs).data (runThumb d 0 envs).count more).steps := by
  have h0 : (runThumb d 0 envs).steps = (List.range' 0 (min envs.length 10)).map Int.ofNat := by
    have h := runThumb_steps d 0 (by omega) envs
    simpa using h
  refine ⟨?_, h0, ?_, runThumb_append d 0 envs more⟩
  · rw [h0]
    simp
  · have h := runThumb_steps d2 10 (by omega) more
    simpa using h

lemma timer_src_func_cases (d : CustomData) (q : Option Int) :
    ((timer_src_func d q).2.1 = true ∧ (timer_src_func d q).1.timer_id = d.timer_id
      ∧ (timer_src_func d q).1.state = d.state)
  ∨ (timer_src_func d q).2.1 = false := by
  unfold timer_src_func
  cases q <;> dsimp <;> split <;> simp

lemma paused_clears_timers (s : Sys) (hInv : sysInv s) (qdur : Option Int) :
    (state_changed_cb s .Paused qdur).1.timers = [] := by
  rcases hInv with h0 | ⟨id, h1, h2, h3, _⟩
  · by_cases hid : s.data.timer_id > 0 <;> simp [state_changed_cb, hid, h0]
  · have hidpos : s.data.timer_id > 0 := by rw [h2]; exact_mod_cast h3
    simp [state_changed_cb, hidpos, h1, h2, h3]

lemma inv_step (s : Sys) (e : Ev) (hInv : sysInv s) (hEn : enabledB s e = true) :
    sysInv (stepEv s e).1 := by
  cases e with
  | stateChanged new qdur =>
    cases new with
    | Playing =>
      have hst : s.data.state = GstState.Paused := by
        cases h : s.data.state with
        | Paused => rfl
        | VoidPending => simp [enabledB, confirmed, adjacent, h] at hEn
        | Null => simp [enabledB, confirmed, adjacent, h] at hEn
        | Ready => simp [enabledB, confirmed, adjacent, h] at hEn
        | Playing => simp [enabledB, confirmed, adjacent, h] at hEn
      have htimers : s.timers = [] := by
        rcases hInv with h0 | ⟨id, _, _, _, h4⟩
        · exact h0
        · rw [hst] at h4; simp at h4
      cases hq : qdur <;>
        exact Or.inr ⟨s.nextId + 1,
          by simp [stepEv, state_changed_cb, htimers, hq],
          by simp [stepEv, state_changed_cb, hq],
          Nat.succ_pos _,
          by simp [stepEv, state_changed_cb, hq]⟩
    | Paused =>
      exact Or.inl (paused_clears_timers s hInv qdur)
    | VoidPending =>
      exfalso
      cases h : confirmed s <;> simp [enabledB, h, adjacent] at hEn
    | Null =>
      rcases hInv with h0 | ⟨id, _, _, _, h4⟩
      · exact Or.inl (by simp [stepEv, state_changed_cb, h0])
      · exfalso; simp [enabledB, confirmed, adjacent, h4] at hEn
    | Ready =>
      rcases hInv with h0 | ⟨id, _, _, _, h4⟩
      · exact Or.inl (by simp [stepEv, state_changed_cb, h0])
      · exfalso; simp [enabledB, confirmed, adjacent, h4] at hEn
  | timerFire id qpos =>
    rcases hInv with h0 | ⟨id0, h1, h2, h3, h4⟩
    · exfalso; simp [enabledB, h0] at hEn
    · have hid : id = id0 := by simp [enabledB, h1] at hEn; omega
      subst hid
      rcases timer_src_func_cases s.data qpos with ⟨hb, hti, hstp⟩ | hb
      · exact Or.inr ⟨id,
          by simp [stepEv, sys_timer_fire, hb, h1],
          by rw [stepEv, sys_timer_fire]; simp [hb, hti, h2],
          h3,
          by rw [stepEv, sys_timer_fire]; simp [hb, hstp, h4]⟩
      · exact Or.inl (by simp [stepEv, sys_timer_fire, hb, h1])
  | endOfStream =>
    rcases hInv with h0 | ⟨id0, h1, h2, h3, h4⟩
    · exact Or.inl (by simp [stepEv, sys_eos, h0])
    · exact Or.inr ⟨id0,
        by simp [stepEv, sys_eos, eos_cb, h1],
        by simp [stepEv, sys_eos, eos_cb, h2],
        h3,
        by simp [stepEv, sys_eos, eos_cb, h4]⟩

lemma reach_inv (s : Sys) (h : Reach s) : sysInv s := by
  induction h with
  | init => exact Or.inl rfl
  | step s e _ hEn ih => exact inv_step s e ih hEn

/-- C8 fails as stated: running NULL → READY → PAUSED → PLAYING and then one
poll tick whose queried position already equals the duration reaches a state
whose confirmed lifecycle state is still Playing but which has no active
polling task (the poller removed itself), refuting the "if and only if". -/
theorem c8_counterexample :
    Reach (runEvs initSys c8trace)
  ∧ (runEvs initSys c8trace).data.state = GstState.Playing
  ∧ (runEvs initSys c8trace).timers = [] := by
  have h1 : Reach (stepEv initSys (Ev.stateChanged .Ready none)).1 :=
    Reach.step _ _ Reach.init (by decide)
  have h2 : Reach (stepEv (stepEv initSys (Ev.stateChanged .Ready none)).1
      (Ev.stateChanged .Paused none)).1 :=
    Reach.step _ _ h1 (by decide)
  have h3 : Reach (stepEv (stepEv (stepEv initSys (Ev.stateChanged .Ready none)).1
      (Ev.stateChanged .Paused none)).1 (Ev.stateChanged .Playing (some 100))).1 :=
    Reach.step _ _ h2 (by decide)
  have h4 : Reach (stepEv (stepEv (stepEv (stepEv initSys (Ev.stateChanged .Ready none)).1
      (Ev.stateChanged .Paused none)).1 (Ev.stateChanged .Playing (some 100))).1
      (Ev.timerFire 1 (some 100))).1 :=
    Reach.step _ _ h3 (by decide)
  exact ⟨h4, by decide, by decide⟩

/-- C8 (amended): in every reachable state at most one position-polling
task is scheduled, and a scheduled one implies the confirmed state is
Playing; the converse direction of the claimed "iff" does not hold (see the
counterexample: the poller stops itself at position = duration while the
state is still Playing). -/
theorem c8_poller_invariant (s : Sys) (h : Reach s) :
    s.timers.length ≤ 1 ∧ (s.timers ≠ [] → s.data.state = GstState.Playing) := by
  rcases reach_inv s h with h0 | ⟨id, h1, _, _, h4⟩
  · rw [h0]; exact ⟨by simp, by simp⟩
  · rw [h1]; exact ⟨by simp, fun _ => h4⟩

/-- Witness for C8 (amended) at the initial state. -/
theorem c8_poller_invariant_witness :
    initSys.timers.length ≤ 1 ∧ (initSys.timers ≠ [] → initSys.data.state = GstState.Playing) :=
  c8_poller_invariant initSys Reach.init

/-- C9: once a PAUSED confirmation from the playbin is processed in any
reachable state, no poll source remains scheduled; a poll tick event is
never enabled while no source is scheduled (so no already-scheduled stale
tick can fire and mutate state); and every event other than a confirmed
transition into Playing keeps the set of scheduled poll sources empty, so
no position or slider update from the poller is emitted after the pause
until playback is confirmed again. -/
theorem c9_pause_cancels_poller (s : Sys) (h : Reach s) (qdur : Option Int) :
    (state_changed_cb s .Paused qdur).1.timers = []
  ∧ (∀ t : Sys, t.timers = [] → ∀ id qpos, enabledB t (.timerFire id qpos) = false)
  ∧ (∀ t : Sys, ∀ e : Ev, t.timers = [] →
      (∀ q, e ≠ .stateChanged .Playing q) → (stepEv t e).1.timers = []) := by
  refine ⟨paused_clears_timers s (reach_inv s h) qdur, ?_, ?_⟩
  · intro t ht id qpos
    simp [enabledB, ht]
  · intro t e ht hne
    cases e with
    | stateChanged new qd =>
      cases new with
      | Playing => exact absurd rfl (hne qd)
      | Paused =>
        by_cases hid : ({ t.data with state := GstState.Paused } : CustomData).timer_id > 0 <;>
          simp [stepEv, state_changed_cb, hid, ht]
      | VoidPending => simp [stepEv, state_changed_cb, ht]
      | Null => simp [stepEv, state_changed_cb, ht]
      | Ready => simp [stepEv, state_changed_cb, ht]
    | timerFire id qpos =>
      rcases timer_src_func_cases t.data qpos with ⟨hb, _, _⟩ | hb <;>
        simp [stepEv, sys_timer_fire, hb, ht]
    | endOfStream => simp [stepEv, sys_eos, ht]

/-- Witness for C9 at the initial state. -/
theorem c9_pause_cancels_poller_witness :
    (state_changed_cb initSys .Paused none).1.timers = []
  ∧ (∀ t : Sys, t.timers = [] → ∀ id qpos, enabledB t (.timerFire id qpos) = false)
  ∧ (∀ t : Sys, ∀ e : Ev, t.timers = [] →
      (∀ q, e ≠ .stateChanged .Playing q) → (stepEv t e).1.timers = []) :=
  c9_pause_cancels_poller initSys Reach.init none

end VideoPlayer
